import Mathlib

/-
Verification of the golem-ai TTS adapter suite: a shallow embedding of the
request-dispatch, retry, durability-replay, error-translation, validation and
streaming-session layers, with theorems settling the specification claims.

Machine integers are modelled as Nat; `f64`/`f32` arithmetic is modelled with
exact rational arithmetic (Rat), and each place where the source casts a float
to an integer (`as u64`) is modelled by floor-then-truncate-at-zero, which
matches Rust's saturating float-to-int cast for all finite values.
Byte strings are modelled as `List Nat`.
-/

namespace GolemTts

/-- Does `pat` occur at the head of `s`? Helper for substring containment. -/
def leadMatch : List Char → List Char → Bool
  | _, [] => true
  | [], _ :: _ => false
  | a :: as, b :: bs => a == b && leadMatch as bs

/-- Does `pat` occur contiguously anywhere in the list? -/
def containsSeq (pat : List Char) : List Char → Bool
  | [] => leadMatch [] pat
  | c :: rest => leadMatch (c :: rest) pat || containsSeq pat rest

/-- Substring containment, modelling Rust's `str::contains` for string patterns. -/
def strContainsSub (s pat : String) : Bool :=
  containsSeq pat.toList s.toList

/-- Modelled from the spec: the closed domain error taxonomy `TtsError` is
generated WIT binding code that is not under `src/`; its variants are taken
from spec §3 ("DomainError") together with the extra variants the source code
constructs (`SessionNotFound` in `deepgram/src/streaming.rs`,
`AuthenticationError` and `ConfigurationError` in `google/src/client.rs`). -/
inductive TtsError where
  | networkError (msg : String)
  | unauthorized (msg : String)
  | accessDenied (msg : String)
  | rateLimited (retryAfterSeconds : Nat)
  | serviceUnavailable (msg : String)
  | invalidText (msg : String)
  | invalidConfiguration (msg : String)
  | voiceNotFound (msg : String)
  | textTooLong (maxChars : Nat)
  | invalidSsml (msg : String)
  | synthesisFailed (msg : String)
  | unsupportedOperation (msg : String)
  | internalError (msg : String)
  | sessionNotFound (msg : String)
  | authenticationError (msg : String)
  | configurationError (msg : String)
deriving DecidableEq, Repr

/-- From `tts/src/retry.rs` (`is_retryable`): only network, rate-limit,
service-unavailable and internal errors are retried. -/
def is_retryable : TtsError → Bool
  | .networkError _ => true
  | .rateLimited _ => true
  | .serviceUnavailable _ => true
  | .internalError _ => true
  | _ => false

/-- From `tts/src/retry.rs`: `RetryConfig`. `backoff_multiplier : f64` is
modelled as an exact rational. -/
structure RetryConfig where
  max_retries : Nat
  initial_delay_ms : Nat
  max_delay_ms : Nat
  backoff_multiplier : Rat
deriving DecidableEq, Repr

/-- From `tts/src/retry.rs` (`RetryConfig::default`). -/
def RetryConfig.default : RetryConfig :=
  { max_retries := 3, initial_delay_ms := 1000, max_delay_ms := 30000
    backoff_multiplier := 2 }

/-- The value of `attempt as i32` in the source: a `u32` attempt counter cast
with Rust `as i32` semantics (two's-complement wrap-around). -/
def toInt32 (n : Nat) : Int :=
  (((n + 2 ^ 31) % 2 ^ 32 : Nat) : Int) - 2 ^ 31

/-- From `tts/src/retry.rs` (`RetryConfig::calculate_delay`):
`initial_delay_ms as f64 * backoff_multiplier.powi(attempt as i32)`, capped at
`max_delay_ms` and cast back with `as u64`.  The float arithmetic is modelled
exactly over the rationals; the final cast is floor truncated at zero, which
agrees with Rust's saturating cast.  The `attempt as i32` wrap-around is kept. -/
def RetryConfig.calculate_delay (cfg : RetryConfig) (attempt : Nat) : Nat :=
  let delay : Rat := (cfg.initial_delay_ms : Rat) * cfg.backoff_multiplier ^ toInt32 attempt
  let capped : Rat := min delay (cfg.max_delay_ms : Rat)
  (⌊capped⌋).toNat

/-- Observable outcome of one `retry_with_config` run: the returned result,
how many times the wrapped operation was invoked, and the total milliseconds
passed to `std::thread::sleep`. -/
structure RetryTrace (α : Type) where
  result : Except TtsError α
  invocations : Nat
  slept_ms : Nat
deriving Repr

/-- The `for attempt in 0..=max_retries` loop of `retry_with_config`
(`tts/src/retry.rs`); `fuel` is the number of remaining loop iterations and
`lastErr` mirrors the `last_error` variable.  The wrapped operation is the
oracle `f`, indexed by the attempt number. -/
def retryLoop (cfg : RetryConfig) (f : Nat → Except TtsError α) :
    Nat → Nat → Option TtsError → Nat → Nat → RetryTrace α
  | 0, _, lastErr, inv, slept =>
      -- falling off the end of the loop: line 65 of retry.rs
      ⟨.error (lastErr.getD (.internalError "Retry failed")), inv, slept⟩
  | fuel + 1, attempt, _, inv, slept =>
      match f attempt with
      | .ok v => ⟨.ok v, inv + 1, slept⟩
      | .error e =>
          if is_retryable e = false ∨ cfg.max_retries ≤ attempt then
            ⟨.error e, inv + 1, slept⟩
          else
            retryLoop cfg f fuel (attempt + 1) (some e) (inv + 1)
              (slept + cfg.calculate_delay attempt)

/-- From `tts/src/retry.rs` (`retry_with_config`). -/
def retry_with_config (cfg : RetryConfig) (f : Nat → Except TtsError α) : RetryTrace α :=
  retryLoop cfg f (cfg.max_retries + 1) 0 none 0 0

/-- From `tts/src/error.rs`: the reqwest branch of `From<Error> for WitTtsError`.
The reqwest error value is abstracted to the facts the translation inspects:
timeout, connect failure, a bad-status response (with its code), or other.
`msg` stands for the `Display` rendering of the underlying error. -/
inductive ReqwestError where
  | timeout
  | connect (msg : String)
  | statusError (code : Nat) (msg : String)
  | other (msg : String)
deriving DecidableEq, Repr

/-- From `tts/src/error.rs`, lines 20-39. -/
def wit_error_from_reqwest : ReqwestError → TtsError
  | .timeout => .networkError "Request timeout"
  | .connect m => .networkError ("Connection error: " ++ m)
  | .statusError code m =>
      match code with
      | 401 => .unauthorized "Unauthorized"
      | 403 => .accessDenied "Access denied"
      | 429 => .rateLimited 60
      | 503 => .serviceUnavailable "Service unavailable"
      | c => .internalError ("HTTP " ++ toString c ++ ": " ++ m)
  | .other m => .networkError ("Request error: " ++ m)

/-- A provider error-response body, abstracted to what the parsers inspect:
either a JSON body from which a string message field could be extracted
(`withMessage message raw`), or any body without one (non-JSON, or JSON
without a string message field), carried as its raw text. -/
inductive ErrorBody where
  | withMessage (message : String) (raw : String)
  | noMessage (raw : String)
deriving DecidableEq, Repr

/-- From `polly/src/conversions.rs` (`parse_polly_error`). -/
def parse_polly_error (status : Nat) (body : ErrorBody) : TtsError :=
  match body with
  | .withMessage message _ =>
      match status with
      | 400 =>
          if strContainsSub message "Text is too long" then .textTooLong 3000
          else if strContainsSub message "SSML" then .invalidSsml message
          else .invalidText message
      | 403 => .unauthorized "Invalid AWS credentials"
      | 404 =>
          if strContainsSub message "voice" then .voiceNotFound message
          else .serviceUnavailable message
      | 429 => .rateLimited 60
      | 503 => .serviceUnavailable "AWS Polly unavailable"
      | s => .synthesisFailed ("AWS error " ++ toString s ++ ": " ++ message)
  | .noMessage raw =>
      match status with
      | 400 => .invalidText raw
      | 403 => .unauthorized "Invalid AWS credentials"
      | 404 => .voiceNotFound "Voice not found"
      | 429 => .rateLimited 60
      | 503 => .serviceUnavailable "AWS Polly unavailable"
      | s => .synthesisFailed ("HTTP " ++ toString s ++ ": " ++ raw)

/-- From `elevenlabs/src/conversions.rs` (`parse_elevenlabs_error`); the JSON
message field is named `detail` there. -/
def parse_elevenlabs_error (status : Nat) (body : ErrorBody) : TtsError :=
  match body with
  | .withMessage detail _ =>
      match status with
      | 400 => .invalidText detail
      | 401 => .unauthorized detail
      | 403 => .accessDenied detail
      | 422 => .invalidConfiguration detail
      | 429 => .rateLimited 60
      | s => .synthesisFailed ("HTTP " ++ toString s ++ ": " ++ detail)
  | .noMessage raw =>
      match status with
      | 400 => .invalidText raw
      | 401 => .unauthorized "Invalid API key"
      | 403 => .accessDenied "Access denied"
      | 422 => .invalidConfiguration raw
      | 429 => .rateLimited 60
      | 503 => .serviceUnavailable "ElevenLabs API unavailable"
      | s => .synthesisFailed ("HTTP " ++ toString s ++ ": " ++ raw)

/-- From the WIT `validation-result` record (spec §4.4 / §8).
`estimated_duration : f32` is modelled exactly as a rational. -/
structure ValidationResult where
  is_valid : Bool
  character_count : Nat
  estimated_duration : Option Rat
  warnings : List String
  errors : List String
deriving DecidableEq, Repr

/-- From `polly/src/lib.rs` (`PollyComponent::validate_input`): `char_count`
is `input.content.len()`, the UTF-8 byte length; `warnings` and `errors` are
always empty. -/
def polly_validate_input (content : String) : ValidationResult :=
  let charCount := content.utf8ByteSize
  { is_valid := decide (0 < charCount) && decide (charCount ≤ 3000)
    character_count := charCount
    estimated_duration := some ((charCount : Rat) * (5 / 100))
    warnings := []
    errors := [] }

/-- From `deepgram/src/lib.rs` (`DeepgramComponent::validate_input`). -/
def deepgram_validate_input (content : String) : ValidationResult :=
  let charCount := content.utf8ByteSize
  let isValid := decide (0 < charCount) && decide (charCount ≤ 2000)
  { is_valid := isValid
    character_count := charCount
    estimated_duration := some ((charCount : Rat) * (5 / 100))
    warnings := if 1500 < charCount then ["Text is approaching Deepgram's limit"] else []
    errors :=
      if isValid = false then ["Text must be between 1 and 2000 characters"] else [] }

/-- Rust `str::split_whitespace().count()`: split on whitespace, drop empty
fragments, count the rest. -/
def rustWordCount (s : String) : Nat :=
  ((s.split Char.isWhitespace).filter (fun t => t.isEmpty = false)).length

/-- From the WIT `synthesis-metadata` record; `request_id` (a freshly drawn
UUID or wall-clock timestamp in the source) is omitted as nondeterministic. -/
structure SynthesisMetadata where
  duration_seconds : Rat
  character_count : Nat
  word_count : Nat
  audio_size_bytes : Nat
  provider_info : Option String
deriving DecidableEq, Repr

/-- From the WIT `synthesis-result` record as used by `polly/src/lib.rs`
(metadata inline) and `deepgram/src/conversions.rs` (metadata optional): the
optional form subsumes both. -/
structure SynthesisResult where
  audio_data : List Nat
  metadata : Option SynthesisMetadata
deriving DecidableEq, Repr

/-- From `polly/src/lib.rs` lines 91-105 (`PollyComponent::synthesize`, the
exported synthesis operation): a stub that never touches the network and
returns an empty audio buffer with estimated metadata for any input. -/
def polly_component_synthesize (content : String) : Except TtsError SynthesisResult :=
  let charCount := content.utf8ByteSize
  .ok
    { audio_data := []
      metadata := some
        { duration_seconds := (charCount : Rat) * (5 / 100)
          character_count := charCount
          word_count := rustWordCount content
          audio_size_bytes := 0
          provider_info := some "AWS Polly (stub)" } }

/-- From `deepgram/src/conversions.rs` (`estimate_audio_duration`). -/
def estimate_audio_duration (audioData : List Nat) (sampleRate : Nat) : Rat :=
  if audioData = [] then 0
  else
    let bytesPerSecond : Nat :=
      match sampleRate with
      | 8000 => 16000
      | 16000 => 32000
      | 22050 => 44100
      | 24000 => 48000
      | 48000 => 96000
      | _ => 48000
    (audioData.length : Rat) / (bytesPerSecond : Rat)

/-- From `deepgram/src/conversions.rs` (`audio_data_to_synthesis_result`);
`character_count` there is `text.chars().count()` (character count, not bytes). -/
def audio_data_to_synthesis_result (audioData : List Nat) (text : String)
    (encoding : String) (sampleRate : Nat) : SynthesisResult :=
  { audio_data := audioData
    metadata := some
      { duration_seconds := estimate_audio_duration audioData sampleRate
        character_count := text.length
        word_count := rustWordCount text
        audio_size_bytes := audioData.length
        provider_info := some
          ("Deepgram TTS - Encoding: " ++ encoding ++ ", Sample Rate: "
            ++ toString sampleRate ++ "Hz") } }

/-- From `deepgram/src/lib.rs` lines 108-136 (`DeepgramComponent::synthesize`).
`apiKey` is the `DEEPGRAM_API_KEY` environment value (`with_config_key`,
`tts/src/config.rs`); the oracle `net` stands for the single HTTP round trip
`client.text_to_speech_with_metadata`, already translated to the domain error
type, returning the audio bytes.  The second component counts network calls.
The helper `invalid_text` imported from `golem_tts::error` is missing from
`src/`; modelled from the spec (§4.4: empty text fails with InvalidText) as
the `InvalidText` constructor. -/
def deepgram_synthesize (apiKey : Option String)
    (net : Unit → Except TtsError (List Nat)) (content : String)
    (encoding : String) (sampleRate : Nat) :
    Except TtsError SynthesisResult × Nat :=
  if content.isEmpty then
    (.error (.invalidText "Text cannot be empty"), 0)
  else
    match apiKey with
    | none =>
        (.error (.invalidConfiguration
          "Required environment variable DEEPGRAM_API_KEY not set or empty"), 0)
    | some _ =>
        match net () with
        | .error e => (.error e, 1)
        | .ok audio =>
            (.ok (audio_data_to_synthesis_result audio content encoding sampleRate), 1)

/-- From `elevenlabs/src/lib.rs` lines 68-73 together with
`elevenlabs/src/client.rs` lines 134-171 (`ElevenLabsClient::synthesize`):
the client performs the HTTP POST unconditionally — there is no emptiness
check on the text.  `apiKey` is `ELEVENLABS_API_KEY`; the oracle `net` is the
HTTP round trip returning the audio bytes; the second component counts
network calls. -/
def elevenlabs_synthesize (apiKey : Option String)
    (net : Unit → Except TtsError (List Nat)) (content : String) :
    Except TtsError SynthesisResult × Nat :=
  match apiKey with
  | none =>
      (.error (.invalidConfiguration
        "Required environment variable ELEVENLABS_API_KEY not set or empty"), 0)
  | some _ =>
      match net () with
      | .error e => (.error e, 1)
      | .ok audio =>
          let charCount := content.utf8ByteSize
          (.ok
            { audio_data := audio
              metadata := some
                { duration_seconds := (charCount : Rat) * (5 / 100)
                  character_count := charCount
                  word_count := rustWordCount content
                  audio_size_bytes := audio.length
                  provider_info := some "ElevenLabs" } }, 1)

/-- From `google/src/client.rs` lines 309-397 (`GoogleCloudTtsClient::synthesize`):
the body immediately returns `AuthenticationError` (the remainder is commented
out), so no network call is made.  The second component counts network calls. -/
def google_client_synthesize (_content : String) :
    Except TtsError SynthesisResult × Nat :=
  (.error (.authenticationError "OAuth2 authentication not yet implemented"), 0)

/-- Association-list model of the `HashMap` session registries.  Keys are
unique by construction (`regInsert` erases the key first), so `regRemove`
removes every binding of the key, matching `HashMap::remove`. -/
def regLookup (reg : List (String × σ)) (k : String) : Option σ :=
  List.lookup k reg

/-- Remove a key from the registry (`HashMap::remove`). -/
def regRemove (reg : List (String × σ)) (k : String) : List (String × σ) :=
  reg.filter (fun e => e.1 != k)

/-- Insert or replace a key (`HashMap::insert` / in-place mutation through
`get_mut`). -/
def regInsert (reg : List (String × σ)) (k : String) (v : σ) : List (String × σ) :=
  (k, v) :: regRemove reg k

/-- From `elevenlabs/src/client.rs`: the `WitStreamStatus` values the client
constructs (`Ready`, `Processing`, `Finished`). -/
inductive ElStreamStatus where
  | ready
  | processing
  | finished
deriving DecidableEq, Repr

/-- From `elevenlabs/src/client.rs` (`StreamSessionState`). -/
structure ElSession where
  chunks : List (List Nat)
  current_index : Nat
  finished : Bool
  status : ElStreamStatus
deriving DecidableEq, Repr

/-- The ElevenLabs session registry: `STREAM_SESSIONS` is a process-wide
`OnceLock<Mutex<HashMap<..>>>`; `none` models the never-initialized lock
(no `create_stream` has run), `some reg` the initialized map. -/
abbrev ElRegistry := Option (List (String × ElSession))

/-- From the WIT `audio-chunk` record as built by
`ElevenLabsClient::stream_receive_chunk`; `timing_info` (always `None` there)
is omitted. -/
structure AudioChunk where
  data : List Nat
  sequence_number : Nat
  is_final : Bool
deriving DecidableEq, Repr

/-- From the WIT `stream-session` record as built by
`ElevenLabsClient::create_stream`. -/
structure ElStreamSession where
  session_id : String
  status : ElStreamStatus
  pending_chunks : Nat
deriving DecidableEq, Repr

/-- From `elevenlabs/src/client.rs` (`create_stream`): `newId` is the freshly
drawn UUID (nondeterministic, passed as a parameter); `get_or_init`
initializes the registry if needed. -/
def el_create_stream (st : ElRegistry) (newId : String) :
    Except TtsError ElStreamSession × ElRegistry :=
  let reg := st.getD []
  (.ok { session_id := newId, status := .ready, pending_chunks := 0 },
    some (regInsert reg newId
      { chunks := [], current_index := 0, finished := false, status := .ready }))

/-- From `elevenlabs/src/client.rs` (`stream_send_text`): looks the session up,
then performs one HTTP POST (the oracle `net`, already domain-translated) and
appends the returned bytes as a chunk, setting the status to `Processing`. -/
def el_stream_send_text (net : Except TtsError (List Nat)) (st : ElRegistry)
    (id : String) : Except TtsError Unit × ElRegistry :=
  match st with
  | none => (.error (.invalidConfiguration "Stream sessions not initialized"), none)
  | some reg =>
      match regLookup reg id with
      | none =>
          (.error (.invalidConfiguration ("Session " ++ id ++ " not found")), some reg)
      | some sess =>
          match net with
          | .error e => (.error e, some reg)
          | .ok bytes =>
              (.ok (), some (regInsert reg id
                { sess with chunks := sess.chunks ++ [bytes], status := .processing }))

/-- From `elevenlabs/src/client.rs` (`stream_finish`). -/
def el_stream_finish (st : ElRegistry) (id : String) :
    Except TtsError Unit × ElRegistry :=
  match st with
  | none => (.error (.invalidConfiguration "Stream sessions not initialized"), none)
  | some reg =>
      match regLookup reg id with
      | none =>
          (.error (.invalidConfiguration ("Session " ++ id ++ " not found")), some reg)
      | some sess =>
          (.ok (), some (regInsert reg id
            { sess with finished := true, status := .finished }))

/-- From `elevenlabs/src/client.rs` (`stream_receive_chunk`). -/
def el_stream_receive_chunk (st : ElRegistry) (id : String) :
    Except TtsError (Option AudioChunk) × ElRegistry :=
  match st with
  | none => (.error (.invalidConfiguration "Stream sessions not initialized"), none)
  | some reg =>
      match regLookup reg id with
      | none =>
          (.error (.invalidConfiguration ("Session " ++ id ++ " not found")), some reg)
      | some sess =>
          if sess.current_index < sess.chunks.length then
            (.ok (some
              { data := sess.chunks.getD sess.current_index []
                sequence_number := sess.current_index
                is_final :=
                  decide (sess.current_index = sess.chunks.length - 1) && sess.finished }),
              some (regInsert reg id { sess with current_index := sess.current_index + 1 }))
          else
            (.ok none, some reg)

/-- From `elevenlabs/src/client.rs` (`stream_has_pending`). -/
def el_stream_has_pending (st : ElRegistry) (id : String) :
    Except TtsError Bool × ElRegistry :=
  match st with
  | none => (.error (.invalidConfiguration "Stream sessions not initialized"), none)
  | some reg =>
      match regLookup reg id with
      | none =>
          (.error (.invalidConfiguration ("Session " ++ id ++ " not found")), some reg)
      | some sess => (.ok (decide (sess.current_index < sess.chunks.length)), some reg)

/-- From `elevenlabs/src/client.rs` (`stream_get_status`). -/
def el_stream_get_status (st : ElRegistry) (id : String) :
    Except TtsError ElStreamStatus × ElRegistry :=
  match st with
  | none => (.error (.invalidConfiguration "Stream sessions not initialized"), none)
  | some reg =>
      match regLookup reg id with
      | none =>
          (.error (.invalidConfiguration ("Session " ++ id ++ " not found")), some reg)
      | some sess => (.ok sess.status, some reg)

/-- From `elevenlabs/src/client.rs` lines 304-312 (`stream_close`): fails if
the registry was never initialized; otherwise removes the session (if present)
and returns success. -/
def el_stream_close (st : ElRegistry) (id : String) :
    Except TtsError Unit × ElRegistry :=
  match st with
  | none => (.error (.invalidConfiguration "Stream sessions not initialized"), none)
  | some reg => (.ok (), some (regRemove reg id))

/-- From `deepgram/src/streaming.rs` (`StreamStatusInternal`). -/
inductive DgStreamStatus where
  | connecting
  | active
  | finished
  | streamError (msg : String)
deriving DecidableEq, Repr

/-- From `deepgram/src/streaming.rs` (`StreamSessionData`). -/
structure DgSession where
  model : String
  encoding : String
  sample_rate : Nat
  status : DgStreamStatus
  pending_chunks : List (List Nat)
deriving DecidableEq, Repr

/-- The Deepgram `StreamManager` session map (a `Mutex<HashMap<..>>` owned by
the manager, so always initialized). -/
abbrev DgRegistry := List (String × DgSession)

/-- From the WIT `stream-status` record as built by
`StreamManager::get_status`. -/
structure DgStreamStatusOut where
  status : String
  is_active : Bool
  has_pending_chunks : Bool
  error : Option String
deriving DecidableEq, Repr

/-- From `deepgram/src/streaming.rs` (`StreamManager::create_stream`): always
fails before inserting anything (WebSocket support is unavailable). -/
def dg_create_stream (reg : DgRegistry) :
    Except TtsError ElStreamSession × DgRegistry :=
  (.error (.unsupportedOperation
    ("WebSocket streaming requires WASI 0.3+ - not yet available in WASI 0.23. "
      ++ "Use REST API synthesis as alternative.")), reg)

/-- From `deepgram/src/streaming.rs` (`StreamManager::send_text`). -/
def dg_send_text (reg : DgRegistry) (_id : String) :
    Except TtsError Unit × DgRegistry :=
  (.error (.unsupportedOperation "WebSocket not available in WASI 0.23"), reg)

/-- From `deepgram/src/streaming.rs` (`StreamManager::finish`). -/
def dg_finish (reg : DgRegistry) (_id : String) :
    Except TtsError Unit × DgRegistry :=
  (.error (.unsupportedOperation "WebSocket not available in WASI 0.23"), reg)

/-- From `deepgram/src/streaming.rs` (`StreamManager::receive_chunk`). -/
def dg_receive_chunk (reg : DgRegistry) (_id : String) :
    Except TtsError (Option AudioChunk) × DgRegistry :=
  (.error (.unsupportedOperation "WebSocket not available in WASI 0.23"), reg)

/-- From `deepgram/src/streaming.rs` lines 138-145 (`StreamManager::has_pending`):
a missing session yields `Ok(false)`, not an error. -/
def dg_has_pending (reg : DgRegistry) (id : String) : Except TtsError Bool :=
  match regLookup reg id with
  | some sess => .ok (sess.pending_chunks.isEmpty = false)
  | none => .ok false

/-- From `deepgram/src/streaming.rs` (`StreamManager::get_status`): a missing
session yields `SessionNotFound`. -/
def dg_get_status (reg : DgRegistry) (id : String) :
    Except TtsError DgStreamStatusOut :=
  match regLookup reg id with
  | none => .error (.sessionNotFound id)
  | some sess =>
      .ok
        { status :=
            match sess.status with
            | .connecting => "connecting"
            | .active => "active"
            | .finished => "finished"
            | .streamError _ => "error"
          is_active := sess.status = DgStreamStatus.active
          has_pending_chunks := sess.pending_chunks.isEmpty = false
          error :=
            match sess.status with
            | .streamError msg => some msg
            | _ => none }

/-- From `deepgram/src/streaming.rs` lines 173-177 (`StreamManager::close`):
removes the session if present and always returns success. -/
def dg_close (reg : DgRegistry) (id : String) : Except TtsError Unit × DgRegistry :=
  (.ok (), regRemove reg id)

/-- The uniform facade operation set wrapped by `DurableTts`
(`tts/src/durability.rs`): the voices, synthesis, streaming and advanced
interfaces. -/
inductive FacadeOp where
  | listVoices
  | getVoice
  | searchVoices
  | listLanguages
  | synthesize
  | synthesizeBatch
  | getTimingMarks
  | validateInput
  | createStream
  | streamSendText
  | streamFinish
  | streamReceiveChunk
  | streamHasPending
  | streamGetStatus
  | streamClose
  | createVoiceClone
  | designVoice
  | convertVoice
  | generateSoundEffect
  | createLexicon
  | addLexiconEntry
  | removeLexiconEntry
  | exportLexicon
  | synthesizeLongForm
  | getLongFormStatus
  | cancelLongForm
deriving DecidableEq, Repr

/-- Which facade operations the durable build (`durability.rs`, module
`durable_impl`, feature `durability`) actually routes through the
`Durability` record/replay machinery: only `synthesize` (lines 280-300) and
`synthesize_batch` (lines 302-322) do; every other method of all four
interfaces calls `Impl::...` directly. -/
def usesDurability : FacadeOp → Bool
  | .synthesize => true
  | .synthesizeBatch => true
  | _ => false

/-- One persisted oplog entry: the operation, its input payload and the
persisted outcome (a success value or a domain error, uniformly abstracted
as `ω`). -/
structure JournalEntry (ι ω : Type) where
  op : FacadeOp
  input : ι
  outcome : ω
deriving DecidableEq, Repr

/-- Durable-execution state threaded through the wrapper: the persisted
journal, the replay cursor, and a counter of invocations of the wrapped
provider implementation (each of which is a network call in the source). -/
structure DurState (ι ω : Type) where
  journal : List (JournalEntry ι ω)
  pos : Nat
  providerCalls : Nat
deriving DecidableEq, Repr

/-- Execution mode of the durable wrapper: `live` (first execution) or
`replay` (recovering a previously started execution). -/
inductive DurMode where
  | live
  | replay
deriving DecidableEq, Repr

/-- Modelled from the spec: the `Durability::persist` / `Durability::replay`
journal semantics live in the external `golem_rust` crate, not in `src/`;
spec §4.5 specifies them as: live mode runs the wrapped call (with nested
persistence suppressed) and appends the (input, outcome) pair at the next
sequence position; replay mode reads the entry at the current sequence
position, requiring a prefix-consistent match of (operation, input) and
failing fatally (`none`) on a mismatch or missing entry.  The branch
structure itself — durable operations choose between persist and replay via
`is_live`, all other operations delegate directly — is from
`tts/src/durability.rs` (module `durable_impl`). -/
def durableStep [DecidableEq ι] (impl : FacadeOp → ι → ω) (mode : DurMode)
    (op : FacadeOp) (input : ι) (s : DurState ι ω) : Option (ω × DurState ι ω) :=
  if usesDurability op then
    match mode with
    | .live =>
        let o := impl op input
        some (o, { s with
          journal := s.journal ++ [{ op := op, input := input, outcome := o }]
          providerCalls := s.providerCalls + 1 })
    | .replay =>
        match s.journal[s.pos]? with
        | some e =>
            if e.op = op ∧ e.input = input then
              some (e.outcome, { s with pos := s.pos + 1 })
            else none
        | none => none
  else
    some (impl op input, { s with providerCalls := s.providerCalls + 1 })

/-- Run a sequence of facade calls through the durable wrapper, collecting
the outcomes. -/
def durableRun [DecidableEq ι] (impl : FacadeOp → ι → ω) (mode : DurMode) :
    List (FacadeOp × ι) → DurState ι ω → Option (List ω × DurState ι ω)
  | [], s => some ([], s)
  | (op, i) :: rest, s =>
      (durableStep impl mode op i s).bind fun r =>
        (durableRun impl mode rest r.2).bind fun rr =>
          some (r.1 :: rr.1, rr.2)

/-- The outcomes a live execution produces for a call sequence. -/
def liveOutcomes (impl : FacadeOp → ι → ω) (calls : List (FacadeOp × ι)) : List ω :=
  calls.map (fun c => impl c.1 c.2)

/-- The journal a live execution of durable operations persists. -/
def liveJournal (impl : FacadeOp → ι → ω) (calls : List (FacadeOp × ι)) :
    List (JournalEntry ι ω) :=
  calls.map (fun c => { op := c.1, input := c.2, outcome := impl c.1 c.2 })

/-- Simple success discriminator for `Except`. -/
def exOk : Except ε α → Bool
  | .ok _ => true
  | .error _ => false

theorem regLookup_regRemove (reg : List (String × σ)) (k : String) :
    regLookup (regRemove reg k) k = none := by
  induction reg with
  | nil => rfl
  | cons e rest ih =>
      simp only [regRemove, List.filter_cons] at ih ⊢
      by_cases h : e.1 = k
      · have hb : (e.1 != k) = false := by simp [bne, h]
        simpa [hb] using ih
      · have hb : (e.1 != k) = true := by simp [bne, h]
        have hk : (k == e.1) = false := by
          simp only [beq_eq_false_iff_ne, ne_eq]
          exact fun hh => h hh.symm
        simpa [regLookup, List.lookup, hb, hk] using ih

theorem regRemove_idem (reg : List (String × σ)) (k : String) :
    regRemove (regRemove reg k) k = regRemove reg k := by
  simp [regRemove, List.filter_filter]

theorem get?_of_drop (J : List β) :
    ∀ (p : Nat) (e : β) (t : List β), J.drop p = e :: t → J[p]? = some e := by
  induction J with
  | nil => intro p e t h; simp at h
  | cons a as ih =>
      intro p e t h
      cases p with
      | zero => simpa using congrArg List.head? h
      | succ p => simpa using ih p e t h

theorem drop_succ_of_drop (J : List β) :
    ∀ (p : Nat) (e : β) (t : List β), J.drop p = e :: t → J.drop (p + 1) = t := by
  induction J with
  | nil => intro p e t h; simp at h
  | cons a as ih =>
      intro p e t h
      cases p with
      | zero => simpa using congrArg List.tail h
      | succ p => exact ih p e t h

theorem durableRun_live [DecidableEq ι] (impl : FacadeOp → ι → ω) :
    ∀ (calls : List (FacadeOp × ι)) (J : List (JournalEntry ι ω)) (p c : Nat),
      (∀ x ∈ calls, usesDurability x.1 = true) →
      durableRun impl .live calls ⟨J, p, c⟩ =
        some (liveOutcomes impl calls,
          ⟨J ++ liveJournal impl calls, p, c + calls.length⟩) := by
  intro calls
  induction calls with
  | nil => intro J p c _; simp [durableRun, liveOutcomes, liveJournal]
  | cons x rest ih =>
      intro J p c hdur
      obtain ⟨op, i⟩ := x
      have hop : usesDurability op = true := hdur (op, i) (by simp)
      have hstep : durableStep impl .live op i ⟨J, p, c⟩ =
          some (impl op i,
            ⟨J ++ [{ op := op, input := i, outcome := impl op i }], p, c + 1⟩) := by
        simp [durableStep, hop]
      have ih' := ih
        (J ++ [({ op := op, input := i, outcome := impl op i } : JournalEntry ι ω)])
        p (c + 1) (fun y hy => hdur y (by simp [hy]))
      rw [durableRun, hstep, Option.some_bind]
      dsimp only
      rw [ih', Option.some_bind]
      simp only [liveOutcomes, liveJournal, List.map_cons, List.length_cons,
        List.append_assoc, List.singleton_append, Option.some.injEq, Prod.mk.injEq,
        List.cons.injEq, DurState.mk.injEq, true_and, and_true]
      omega

theorem durableRun_replay [DecidableEq ι] (impl impl₂ : FacadeOp → ι → ω) :
    ∀ (calls : List (FacadeOp × ι)) (rest : List (JournalEntry ι ω))
      (J : List (JournalEntry ι ω)) (p c : Nat),
      (∀ x ∈ calls, usesDurability x.1 = true) →
      J.drop p = liveJournal impl calls ++ rest →
      durableRun impl₂ .replay calls ⟨J, p, c⟩ =
        some (liveOutcomes impl calls, ⟨J, p + calls.length, c⟩) := by
  intro calls
  induction calls with
  | nil => intro rest J p c _ _; simp [durableRun, liveOutcomes]
  | cons x tail ih =>
      intro rest J p c hdur hdrop
      obtain ⟨op, i⟩ := x
      have hop : usesDurability op = true := hdur (op, i) (by simp)
      have hdrop' : J.drop p =
          ({ op := op, input := i, outcome := impl op i } : JournalEntry ι ω) ::
            (liveJournal impl tail ++ rest) := by
        simpa [liveJournal] using hdrop
      have hget := get?_of_drop J p _ _ hdrop'
      have hnext := drop_succ_of_drop J p _ _ hdrop'
      have hstep : durableStep impl₂ .replay op i ⟨J, p, c⟩ =
          some (impl op i, ⟨J, p + 1, c⟩) := by
        simp [durableStep, hop, hget]
      rw [durableRun, hstep, Option.some_bind]
      dsimp only
      rw [ih rest J (p + 1) c (fun y hy => hdur y (by simp [hy])) hnext,
        Option.some_bind]
      simp only [liveOutcomes, List.map_cons, List.length_cons, Option.some.injEq,
        Prod.mk.injEq, List.cons.injEq, DurState.mk.injEq, true_and, and_true]
      omega

theorem retryLoop_allFail (cfg : RetryConfig) (f : Nat → Except TtsError α)
    (err : Nat → TtsError) (hf : ∀ n, f n = .error (err n))
    (hr : ∀ n, is_retryable (err n) = true) :
    ∀ (fuel attempt : Nat) (le : Option TtsError) (inv slept : Nat),
      attempt + fuel = cfg.max_retries + 1 → 1 ≤ fuel →
      (retryLoop cfg f fuel attempt le inv slept).result = .error (err cfg.max_retries) ∧
      (retryLoop cfg f fuel attempt le inv slept).invocations = inv + fuel := by
  intro fuel
  induction fuel with
  | zero => intro attempt le inv slept _ h1; omega
  | succ fuel ih =>
      intro attempt le inv slept hsum _
      simp only [retryLoop, hf attempt]
      by_cases hlast : fuel = 0
      · subst hlast
        have ha : cfg.max_retries = attempt := by omega
        rw [if_pos (Or.inr (le_of_eq ha))]
        exact ⟨by rw [ha], rfl⟩
      · have hlt : attempt < cfg.max_retries := by omega
        rw [if_neg (by simp [hr attempt]; omega)]
        obtain ⟨h₁, h₂⟩ := ih (attempt + 1) (some (err attempt)) (inv + 1)
          (slept + cfg.calculate_delay attempt) (by omega) (by omega)
        exact ⟨h₁, by omega⟩

theorem utf8Len_replicate_a (n : Nat) :
    String.utf8Len (List.replicate n 'a') = n := by
  induction n with
  | zero => rfl
  | succ n ih => simp [List.replicate_succ, ih, Char.utf8Size]

theorem utf8ByteSize_replicate_a (n : Nat) :
    (String.mk (List.replicate n 'a')).utf8ByteSize = n := by
  simp [String.utf8ByteSize]
  exact utf8Len_replicate_a n

theorem toInt32_ofLt (n : Nat) (h : n < 2 ^ 31) : toInt32 n = n := by
  unfold toInt32
  have h2 : n + 2 ^ 31 < 2 ^ 32 := by
    have hp : (2 : Nat) ^ 32 = 2 ^ 31 + 2 ^ 31 := by norm_num
    omega
  rw [Nat.mod_eq_of_lt h2]
  push_cast
  ring

/-- Claim C1: in replay mode the durable wrapper for `synthesize` and
`synthesize_batch` does not re-invoke the wrapped provider implementation
(the replay run makes zero provider calls and its outcomes are independent of
the implementation `impl₂` supplied at replay time); it returns, call by
call, exactly the outcomes persisted at the same sequence positions by the
live execution. -/
theorem durable_replay_returns_recorded [DecidableEq ι]
    (impl impl₂ : FacadeOp → ι → ω) (calls : List (FacadeOp × ι))
    (hdur : ∀ x ∈ calls, usesDurability x.1 = true) :
    durableRun impl .live calls ⟨[], 0, 0⟩ =
      some (liveOutcomes impl calls, ⟨liveJournal impl calls, 0, calls.length⟩) ∧
    durableRun impl₂ .replay calls ⟨liveJournal impl calls, 0, 0⟩ =
      some (liveOutcomes impl calls, ⟨liveJournal impl calls, calls.length, 0⟩) := by
  constructor
  · simpa using durableRun_live impl calls [] 0 0 hdur
  · simpa using
      durableRun_replay impl impl₂ calls [] (liveJournal impl calls) 0 0 hdur (by simp)

/-- Witness for C1: a live run of `synthesize` then `synthesize_batch`
persists both outcomes; replaying the same two calls against that journal —
with a provider implementation that would answer differently — returns the
recorded outcomes with zero provider calls. -/
theorem durable_replay_returns_recorded_witness :
    durableRun (ι := Nat) (ω := Nat) (fun _ n => n + 1) .live
        [(FacadeOp.synthesize, 5), (FacadeOp.synthesizeBatch, 9)] ⟨[], 0, 0⟩ =
      some ([6, 10],
        ⟨[{ op := .synthesize, input := 5, outcome := 6 },
          { op := .synthesizeBatch, input := 9, outcome := 10 }], 0, 2⟩) ∧
    durableRun (ι := Nat) (ω := Nat) (fun _ _ => 0) .replay
        [(FacadeOp.synthesize, 5), (FacadeOp.synthesizeBatch, 9)]
        ⟨[{ op := .synthesize, input := 5, outcome := 6 },
          { op := .synthesizeBatch, input := 9, outcome := 10 }], 0, 0⟩ =
      some ([6, 10],
        ⟨[{ op := .synthesize, input := 5, outcome := 6 },
          { op := .synthesizeBatch, input := 9, outcome := 10 }], 2, 0⟩) := by
  have h := durable_replay_returns_recorded (ι := Nat) (ω := Nat)
    (fun _ n => n + 1) (fun _ _ => 0)
    [(FacadeOp.synthesize, 5), (FacadeOp.synthesizeBatch, 9)] (by decide)
  simpa [liveOutcomes, liveJournal] using h

/-- Counterexample to claim C2 as stated: `list_voices` — an operation of the
uniform facade — persists nothing when executed in live mode through the
durable wrapper (the journal stays empty), and in replay mode it re-invokes
the wrapped implementation instead of reading the recorded outcome (here the
replay-time implementation answers 99, not the recorded 6; the provider-call
counter rises to 1 and the replay cursor does not move). -/
theorem durability_passthrough_cex :
    durableStep (ι := Nat) (ω := Nat) (fun _ n => n + 1) .live .listVoices 5
        ⟨[], 0, 0⟩ = some (6, ⟨[], 0, 1⟩) ∧
    durableStep (ι := Nat) (ω := Nat) (fun _ _ => 99) .replay .listVoices 5
        ⟨[{ op := .listVoices, input := 5, outcome := 6 }], 0, 0⟩ =
      some (99, ⟨[{ op := .listVoices, input := 5, outcome := 6 }], 0, 1⟩) :=
  ⟨rfl, rfl⟩

/-- Claim C2, amended: only `synthesize` and `synthesize_batch` go through
the record/replay machinery — a durable operation executed in live mode has
its (input, outcome) pair persisted exactly once (one journal entry appended
per invocation) — while every other operation of the uniform facade (voices,
streaming, advanced, timing marks, validation) passes straight through to the
wrapped implementation in both modes, persisting and reading nothing. -/
theorem durability_scope_amended [DecidableEq ι] (impl : FacadeOp → ι → ω)
    (mode : DurMode) (op : FacadeOp) (input : ι) (s : DurState ι ω)
    (h : usesDurability op = false) :
    durableStep impl mode op input s =
      some (impl op input, { s with providerCalls := s.providerCalls + 1 }) ∧
    ∀ op₂, usesDurability op₂ = true →
      durableStep impl .live op₂ input s =
        some (impl op₂ input,
          { s with
            journal := s.journal ++
              [{ op := op₂, input := input, outcome := impl op₂ input }]
            providerCalls := s.providerCalls + 1 }) := by
  constructor
  · simp [durableStep, h]
  · intro op₂ h₂
    simp [durableStep, h₂]

/-- Witness for C2 (amended): a voices operation in replay mode passes
through (journal and cursor untouched, provider invoked), and a live
`synthesize` appends exactly one journal entry. -/
theorem durability_scope_amended_witness :
    durableStep (ι := Nat) (ω := Nat) (fun _ n => n * 2) .replay .listVoices 3
        ⟨[], 0, 0⟩ = some (6, ⟨[], 0, 1⟩) ∧
    durableStep (ι := Nat) (ω := Nat) (fun _ n => n * 2) .live .synthesize 3
        ⟨[], 0, 0⟩ =
      some (6, ⟨[{ op := .synthesize, input := 3, outcome := 6 }], 0, 1⟩) := by
  obtain ⟨h1, h2⟩ := durability_scope_amended (ι := Nat) (ω := Nat)
    (fun _ n => n * 2) .replay .listVoices 3 ⟨[], 0, 0⟩ rfl
  exact ⟨h1, h2 .synthesize rfl⟩

/-- Counterexample to claim C3 as stated: with initial delay 1 ms and
multiplier 3/2 (> 1), `calculate_delay(1)` is 1 ms, not the claimed
`min(d0 · m^n, dmax) = 3/2` ms — the `as u64` cast truncates the fractional
part. -/
theorem calculate_delay_cex :
    ((RetryConfig.mk 3 1 30000 (3 / 2)).calculate_delay 1 : Rat) ≠
      min ((1 : Rat) * (3 / 2) ^ (1 : Nat)) (30000 : Rat) := by
  have h1 : toInt32 1 = 1 := by decide
  simp only [RetryConfig.calculate_delay, h1]
  norm_num [Int.floor_eq_iff]

/-- Claim C3, amended: for every `RetryConfig` with multiplier m > 1 and every
attempt number n < 2^31 (beyond which the source's `attempt as i32` cast
wraps), `calculate_delay(n)` equals `min(⌊d0 · m^n⌋, dmax)` milliseconds —
the real-valued product truncated to whole milliseconds by the `as u64`
cast, then capped at `max_delay_ms`. -/
theorem calculate_delay_floor_min (cfg : RetryConfig) (n : Nat)
    (_h1 : 1 < cfg.backoff_multiplier) (hn : n < 2 ^ 31) :
    cfg.calculate_delay n =
      min (⌊(cfg.initial_delay_ms : Rat) * cfg.backoff_multiplier ^ n⌋.toNat)
        cfg.max_delay_ms := by
  unfold RetryConfig.calculate_delay
  rw [toInt32_ofLt n hn, zpow_natCast]
  have hmin : ⌊min ((cfg.initial_delay_ms : Rat) * cfg.backoff_multiplier ^ n)
      (cfg.max_delay_ms : Rat)⌋ =
      min ⌊(cfg.initial_delay_ms : Rat) * cfg.backoff_multiplier ^ n⌋
        (cfg.max_delay_ms : Int) := by
    rcases le_total ((cfg.initial_delay_ms : Rat) * cfg.backoff_multiplier ^ n)
        ((cfg.max_delay_ms : Rat)) with hle | hle
    · rw [min_eq_left hle, min_eq_left]
      simpa using Int.floor_le_floor hle
    · rw [min_eq_right hle, min_eq_right, Int.floor_natCast]
      simpa using Int.floor_le_floor hle
  simp only [hmin]
  omega

/-- Witness for C3 (amended): for the default configuration (d0 = 1000 ms,
m = 2, dmax = 30000 ms) at attempt 2 the delay is 4000 ms. -/
theorem calculate_delay_floor_min_witness :
    (1 : Rat) < 2 ∧ (2 : Nat) < 2 ^ 31 ∧
    (RetryConfig.mk 3 1000 30000 2).calculate_delay 2 =
      min (⌊(1000 : Rat) * (2 : Rat) ^ (2 : Nat)⌋.toNat) 30000 := by
  refine ⟨by norm_num, by norm_num, ?_⟩
  exact calculate_delay_floor_min (RetryConfig.mk 3 1000 30000 2) 2
    (by norm_num) (by norm_num)

/-- Claim C4: (i) if the wrapped operation fails on every invocation with a
retryable error (NetworkError, RateLimited, ServiceUnavailable or
InternalError), `retry_with_config` invokes it exactly `max_retries + 1`
times and returns the error of the final invocation — never a synthetic
error; (ii) if the first invocation fails with any non-retryable error,
`retry_with_config` returns that error after exactly one invocation with no
sleep. -/
theorem retry_exhaustion_and_permanent (cfg : RetryConfig)
    (f g : Nat → Except TtsError α) (err : Nat → TtsError) (e : TtsError)
    (hf : ∀ n, f n = .error (err n)) (hr : ∀ n, is_retryable (err n) = true)
    (hg : g 0 = .error e) (he : is_retryable e = false) :
    ((retry_with_config cfg f).result = .error (err cfg.max_retries) ∧
      (retry_with_config cfg f).invocations = cfg.max_retries + 1) ∧
    retry_with_config cfg g = ⟨.error e, 1, 0⟩ := by
  constructor
  · have h := retryLoop_allFail cfg f err hf hr (cfg.max_retries + 1) 0 none 0 0
      (by omega) (by omega)
    simpa [retry_with_config] using h
  · show retryLoop cfg g (cfg.max_retries + 1) 0 none 0 0 = _
    simp only [retryLoop, hg]
    rw [if_pos (Or.inl he)]

/-- Witness for C4: with max_retries = 2, an always-failing network-error
operation is invoked 3 times and the attempt-2 error is returned; an
operation failing with InvalidText is invoked once, with zero sleep. -/
theorem retry_exhaustion_and_permanent_witness :
    ((retry_with_config (RetryConfig.mk 2 1000 30000 2)
        (fun n => (.error (.networkError (toString n)) : Except TtsError Nat))).result =
      .error (.networkError (toString 2)) ∧
      (retry_with_config (RetryConfig.mk 2 1000 30000 2)
        (fun n => (.error (.networkError (toString n)) : Except TtsError Nat))).invocations = 3) ∧
    retry_with_config (RetryConfig.mk 2 1000 30000 2)
        (fun _ => (.error (.invalidText "empty") : Except TtsError Nat)) =
      ⟨.error (.invalidText "empty"), 1, 0⟩ := by
  have h := retry_exhaustion_and_permanent (RetryConfig.mk 2 1000 30000 2)
    (fun n => (.error (.networkError (toString n)) : Except TtsError Nat))
    (fun _ => (.error (.invalidText "empty") : Except TtsError Nat))
    (fun n => .networkError (toString n)) (.invalidText "empty")
    (fun _ => rfl) (fun _ => rfl) rfl rfl
  exact h

/-- Counterexample to claim C5 as stated: the Polly parser translates a 403
response to `Unauthorized` (not `AccessDenied`) and has no 401 arm at all (a
401 falls through to `SynthesisFailed`); the ElevenLabs parser translates a
503 response carrying a JSON detail message to `SynthesisFailed` (not
`ServiceUnavailable`). -/
theorem status_mapping_cex :
    parse_polly_error 403 (.noMessage "forbidden") =
      .unauthorized "Invalid AWS credentials" ∧
    parse_polly_error 401 (.noMessage "no token") =
      .synthesisFailed ("HTTP " ++ toString 401 ++ ": no token") ∧
    parse_elevenlabs_error 503 (.withMessage "down" "body") =
      .synthesisFailed ("HTTP " ++ toString 503 ++ ": down") :=
  ⟨rfl, rfl, rfl⟩

/-- Claim C5, amended: the 401 → Unauthorized, 403 → AccessDenied,
429 → RateLimited(60), 503 → ServiceUnavailable mapping holds in the shared
transport-error translator (`From<Error>` in `tts/src/error.rs`), and every
provider parser maps 429 → RateLimited(60); the provider-specific parsers
deviate on the other codes (Polly: 403 → Unauthorized, no 401 arm;
ElevenLabs JSON path: no 503 arm). -/
theorem status_mapping_amended :
    (∀ m, wit_error_from_reqwest (.statusError 401 m) = .unauthorized "Unauthorized") ∧
    (∀ m, wit_error_from_reqwest (.statusError 403 m) = .accessDenied "Access denied") ∧
    (∀ m, wit_error_from_reqwest (.statusError 429 m) = .rateLimited 60) ∧
    (∀ m, wit_error_from_reqwest (.statusError 503 m) =
      .serviceUnavailable "Service unavailable") ∧
    (∀ b, parse_polly_error 429 b = .rateLimited 60) ∧
    (∀ b, parse_elevenlabs_error 429 b = .rateLimited 60) := by
  refine ⟨fun m => rfl, fun m => rfl, fun m => rfl, fun m => rfl,
    fun b => ?_, fun b => ?_⟩ <;> cases b <;> rfl

/-- Counterexample to claim C6 as stated: the claim covers bodies "JSON or
not", but for a non-JSON 404 body that does not reference "voice" the Polly
parser returns `VoiceNotFound "Voice not found"`, not the claimed
`ServiceUnavailable`. -/
theorem parse_polly_fallback_cex :
    parse_polly_error 404 (.noMessage "backend database down") =
      .voiceNotFound "Voice not found" ∧
    strContainsSub "backend database down" "voice" = false :=
  ⟨rfl, by decide⟩

/-- Claim C6, amended: for a response body that is JSON with a string
message: a 400 whose message contains "Text is too long" maps to
TextTooLong(3000), one containing "SSML" to InvalidSsml(message), any other
400 to InvalidText(message); a 404 whose message contains "voice" maps to
VoiceNotFound(message), any other 404 to ServiceUnavailable(message).  For a
body without an extractable message the parser falls back to
400 → InvalidText(raw body) and 404 → VoiceNotFound("Voice not found")
regardless of content. -/
theorem parse_polly_400_eq (message raw : String) :
    parse_polly_error 400 (.withMessage message raw) =
      (if strContainsSub message "Text is too long" then .textTooLong 3000
       else if strContainsSub message "SSML" then .invalidSsml message
       else .invalidText message) := rfl

theorem parse_polly_404_eq (message raw : String) :
    parse_polly_error 404 (.withMessage message raw) =
      (if strContainsSub message "voice" then .voiceNotFound message
       else .serviceUnavailable message) := rfl

theorem parse_polly_messages (message raw : String) :
    (strContainsSub message "Text is too long" = true →
      parse_polly_error 400 (.withMessage message raw) = .textTooLong 3000) ∧
    (strContainsSub message "Text is too long" = false →
      strContainsSub message "SSML" = true →
      parse_polly_error 400 (.withMessage message raw) = .invalidSsml message) ∧
    (strContainsSub message "Text is too long" = false →
      strContainsSub message "SSML" = false →
      parse_polly_error 400 (.withMessage message raw) = .invalidText message) ∧
    (strContainsSub message "voice" = true →
      parse_polly_error 404 (.withMessage message raw) = .voiceNotFound message) ∧
    (strContainsSub message "voice" = false →
      parse_polly_error 404 (.withMessage message raw) = .serviceUnavailable message) ∧
    parse_polly_error 400 (.noMessage raw) = .invalidText raw ∧
    parse_polly_error 404 (.noMessage raw) = .voiceNotFound "Voice not found" := by
  refine ⟨fun h1 => ?_, fun h1 h2 => ?_, fun h1 h2 => ?_, fun h1 => ?_,
    fun h1 => ?_, rfl, rfl⟩ <;>
    first
    | (rw [parse_polly_400_eq, h1]; simp [*])
    | (rw [parse_polly_404_eq, h1]; simp [*])

/-- Witness for C6 (amended): one concrete message through each arm. -/
theorem parse_polly_messages_witness :
    parse_polly_error 400 (.withMessage "Text is too long for request" "") =
      .textTooLong 3000 ∧
    parse_polly_error 400 (.withMessage "bad SSML markup" "") =
      .invalidSsml "bad SSML markup" ∧
    parse_polly_error 400 (.withMessage "bad input" "") = .invalidText "bad input" ∧
    parse_polly_error 404 (.withMessage "voice Joanna missing" "") =
      .voiceNotFound "voice Joanna missing" ∧
    parse_polly_error 404 (.withMessage "endpoint missing" "") =
      .serviceUnavailable "endpoint missing" := by
  refine ⟨(parse_polly_messages _ _).1 (by decide),
    (parse_polly_messages _ _).2.1 (by decide) (by decide),
    (parse_polly_messages _ _).2.2.1 (by decide) (by decide),
    (parse_polly_messages _ _).2.2.2.1 (by decide),
    (parse_polly_messages _ _).2.2.2.2.1 (by decide)⟩

/-- Counterexample to claim C7 as stated: the Polly component's exported
`synthesize` (a stub) returns `Ok` — not `InvalidText` — for empty text, and
the ElevenLabs client performs its HTTP round trip (one network invocation)
even when the text is empty. -/
theorem empty_text_cex :
    exOk (polly_component_synthesize "") = true ∧
    (elevenlabs_synthesize (some "key") (fun _ => .ok [7]) "").2 = 1 :=
  ⟨rfl, rfl⟩

/-- Claim C7, amended: only the Deepgram adapter rejects empty text — its
`synthesize` returns InvalidText("Text cannot be empty") with zero network
invocations, before even the API key is consulted.  The other adapters do not
perform this check: Polly's exported `synthesize` is a stub that succeeds
without any network call, the ElevenLabs client issues its HTTP request even
for empty text, and the Google client always fails with AuthenticationError
before any network call. -/
theorem empty_text_guard_amended (apiKey : Option String)
    (netD netE : Unit → Except TtsError (List Nat)) (enc : String) (sr : Nat)
    (key : String) :
    deepgram_synthesize apiKey netD "" enc sr =
      (.error (.invalidText "Text cannot be empty"), 0) ∧
    exOk (polly_component_synthesize "") = true ∧
    (elevenlabs_synthesize (some key) netE "").2 = 1 ∧
    google_client_synthesize "" =
      (.error (.authenticationError "OAuth2 authentication not yet implemented"), 0) := by
  refine ⟨rfl, rfl, ?_, rfl⟩
  cases h : netE () <;> simp [elevenlabs_synthesize, h]

/-- Counterexample to claim C8 as stated: Polly (the provider with
max_chars = 3000 named by the claim) reports a 0-character input as invalid
but with an empty `errors` list — no explicit error message is produced. -/
theorem polly_validate_no_errors_cex :
    (polly_validate_input "").is_valid = false ∧
    (polly_validate_input "").errors = [] :=
  ⟨rfl, rfl⟩

/-- Claim C8, amended: `validate_input` is a pure length check (the
definitions take no network oracle).  For Polly (max 3000 bytes): a
0-character input yields is_valid = false, a 3000-character input
is_valid = true, a 3001-character input is_valid = false — but Polly's
`errors` list is always empty, so the invalid cases carry no message.
Deepgram (max 2000) does supply an explicit error message for invalid
lengths. -/
theorem polly_is_valid_eq (content : String) :
    (polly_validate_input content).is_valid =
      (decide (0 < content.utf8ByteSize) && decide (content.utf8ByteSize ≤ 3000)) := rfl

theorem validate_input_lengths_amended :
    (polly_validate_input "").is_valid = false ∧
    (polly_validate_input (String.mk (List.replicate 3000 'a'))).is_valid = true ∧
    (polly_validate_input (String.mk (List.replicate 3000 'a'))).errors = [] ∧
    (polly_validate_input (String.mk (List.replicate 3001 'a'))).is_valid = false ∧
    (polly_validate_input (String.mk (List.replicate 3001 'a'))).errors = [] ∧
    (deepgram_validate_input "").is_valid = false ∧
    (deepgram_validate_input "").errors =
      ["Text must be between 1 and 2000 characters"] := by
  have h3000 : (String.mk (List.replicate 3000 'a')).utf8ByteSize = 3000 :=
    utf8ByteSize_replicate_a 3000
  have h3001 : (String.mk (List.replicate 3001 'a')).utf8ByteSize = 3001 :=
    utf8ByteSize_replicate_a 3001
  refine ⟨rfl, ?_, rfl, ?_, rfl, rfl, rfl⟩ <;>
    rw [polly_is_valid_eq] <;> (first | rw [h3000] | rw [h3001]) <;> decide

/-- Counterexample to claim C9 as stated: in Deepgram's `StreamManager`,
after `close` succeeds on a session id, `has_pending` on that id returns
`Ok(false)` — it does not fail with a session-not-found error (closing on the
empty registry keeps the scenario reachable: `create_stream` never inserts a
session there). -/
theorem closed_session_has_pending_cex :
    (dg_close ([] : DgRegistry) "session-1").1 = .ok () ∧
    dg_has_pending (dg_close ([] : DgRegistry) "session-1").2 "session-1" =
      .ok false :=
  ⟨rfl, rfl⟩

/-- Claim C9, amended: `stream_close` removes the session from the registry
regardless of its state.  In the ElevenLabs client every further streaming
operation on a closed session id fails with a session-not-found error
(carried in the `InvalidConfiguration` variant with message
"Session <id> not found").  In Deepgram's `StreamManager`, `get_status` on a
closed id fails with `SessionNotFound`, but `has_pending` returns `Ok(false)`
rather than an error. -/
theorem stream_close_finality_amended (reg : List (String × ElSession))
    (id : String) (net : Except TtsError (List Nat)) (dreg : DgRegistry) :
    el_stream_close (some reg) id = (.ok (), some (regRemove reg id)) ∧
    el_stream_send_text net (some (regRemove reg id)) id =
      (.error (.invalidConfiguration ("Session " ++ id ++ " not found")),
        some (regRemove reg id)) ∧
    el_stream_finish (some (regRemove reg id)) id =
      (.error (.invalidConfiguration ("Session " ++ id ++ " not found")),
        some (regRemove reg id)) ∧
    el_stream_receive_chunk (some (regRemove reg id)) id =
      (.error (.invalidConfiguration ("Session " ++ id ++ " not found")),
        some (regRemove reg id)) ∧
    el_stream_has_pending (some (regRemove reg id)) id =
      (.error (.invalidConfiguration ("Session " ++ id ++ " not found")),
        some (regRemove reg id)) ∧
    el_stream_get_status (some (regRemove reg id)) id =
      (.error (.invalidConfiguration ("Session " ++ id ++ " not found")),
        some (regRemove reg id)) ∧
    (dg_close dreg id).1 = .ok () ∧
    dg_get_status (dg_close dreg id).2 id = .error (.sessionNotFound id) ∧
    dg_has_pending (dg_close dreg id).2 id = .ok false := by
  have hl := regLookup_regRemove reg id
  have hld := regLookup_regRemove dreg id
  refine ⟨rfl, ?_, ?_, ?_, ?_, ?_, rfl, ?_, ?_⟩ <;>
    simp [el_stream_send_text, el_stream_finish, el_stream_receive_chunk,
      el_stream_has_pending, el_stream_get_status, dg_close, dg_get_status,
      dg_has_pending, hl, hld]

/-- Counterexample to claim C10 as stated: in the ElevenLabs client,
`stream_close` on a session id that was never created — before any
`create_stream` has initialized the process-wide registry — fails with
`InvalidConfiguration("Stream sessions not initialized")` instead of
returning success. -/
theorem stream_close_fresh_registry_cex :
    el_stream_close none "never-created" =
      (.error (.invalidConfiguration "Stream sessions not initialized"), none) :=
  rfl

/-- Claim C10, amended: Deepgram's `StreamManager::close` is total and
idempotent: it returns success for every session id (created or not) and a
second close leaves the registry exactly as the first.  The ElevenLabs
`stream_close` has the same property once the session registry has been
initialized (i.e. on `some reg`); on the never-initialized registry it fails
with `InvalidConfiguration` instead. -/
theorem stream_close_idempotent_amended (dreg : DgRegistry)
    (reg : List (String × ElSession)) (id : String) :
    (dg_close dreg id).1 = .ok () ∧
    dg_close (dg_close dreg id).2 id = dg_close dreg id ∧
    (el_stream_close (some reg) id).1 = .ok () ∧
    el_stream_close (el_stream_close (some reg) id).2 id =
      el_stream_close (some reg) id := by
  refine ⟨rfl, ?_, rfl, ?_⟩ <;>
    simp [dg_close, el_stream_close, regRemove_idem]

end GolemTts
